import Mathlib

/-!
Verification of the event dispatch core of the invisible_ui repository:
`invisible_ui/events/eventManager.py` and `invisible_ui/handler.py`.

Python objects are embedded shallowly: base Python values become the
inductive `PyVal`; a handler-filter matcher (which may be a plain value or
a callable) becomes `Matcher`; exceptions become `Except PyErr`; the
mutable `EventManager` object becomes explicit state passing on the
`EventManager` structure.  Python object identity (the default `==` used
by `list.remove` on `Handler` instances, which define no `__eq__`) is
modelled by a numeric handler id that `add_handler` allocates freshly.

The module `invisible_ui/events/handler.py`, imported by
`eventManager.py`, is not part of the sources; the pieces of it that the
event manager relies on (the action-list normalization, the `call_actions`
invocation and the always-active default) are modelled from the spec and
marked as such on their declarations.
-/

/-- A base Python value as it occurs in event fields and matcher results:
an int, a string, or None. -/
inductive PyVal where
  | vint : Int → PyVal
  | vstr : String → PyVal
  | vnone : PyVal
deriving DecidableEq, Repr

/-- Python truthiness of a base value: nonzero ints and nonempty strings
are truthy, None is falsy. -/
def truthy : PyVal → Bool
  | .vint n => n != 0
  | .vstr s => s != ""
  | .vnone => false

/-- A filter matcher stored in a handler's `params` dictionary: either a
plain literal value, or a callable.  A callable is represented by its
observable behaviour at the two kinds of argument the dispatcher can pass
it: `func f s` returns `f x` when applied to a base value `x` (an event
field), and returns `s` when applied to the function object itself (which
is what `getattr(event, k, v)` produces when the event lacks the field). -/
inductive Matcher where
  | lit : PyVal → Matcher
  | func : (PyVal → PyVal) → PyVal → Matcher

/-- Python exceptions raised by the event-manager code paths. -/
inductive PyErr where
  | typeError
  | valueError
  | keyError
deriving DecidableEq, Repr

/-- An event as consumed by `handle_event`: a type tag plus named fields
read off it by `getattr`. -/
structure Event where
  type : Nat
  fields : List (String × PyVal)
deriving DecidableEq, Repr

/-- The single call site `v(getattr(event, k, v))` of eventManager.py line
48: `arg = some x` means the event had the field with value `x`; `arg =
none` means the field was absent, so `getattr` returned the matcher object
`v` itself as the default.  Calling a plain (non-callable) value raises
TypeError, modelled as `none`. -/
def matcherApply (v : Matcher) (arg : Option PyVal) : Option PyVal :=
  match v with
  | .lit _ => none
  | .func f s =>
    match arg with
    | some x => some (f x)
    | none => some s

/-- The inner loop of `EventManager.handle_event` (eventManager.py lines
46-49): iterate the handler's `params` in stored order; `break` (report a
clean non-match, `.ok false`) on the first matcher call that is falsy;
propagate the TypeError of calling a non-callable matcher; report `.ok
true` when the loop completes (the for-else match case). -/
def checkParams : List (String × Matcher) → Event → Except PyErr Bool
  | [], _ => .ok true
  | (k, v) :: rest, e =>
    match matcherApply v (e.fields.lookup k) with
    | none => .error .typeError
    | some r => if truthy r then checkParams rest e else .ok false

/-- The Handler class of the missing module invisible_ui/events/handler.py
as the event manager uses it.  Modelled from the spec: fields are the
event type tag, the field-name-to-matcher mapping, the normalized ordered
action list and the always-active flag; `hid` models Python object
identity.  Actions are opaque tokens since only which actions run, in what
order and with what arguments is observable. -/
structure EventsHandler where
  hid : Nat
  type : Nat
  params : List (String × Matcher)
  actions : List Nat
  always_active : Bool

/-- A record of one action invocation: which action token was called, the
id of the Handler passed as its first argument (the handler itself), and
the caller-supplied event argument. -/
structure Invocation where
  action : Nat
  selfId : Nat
  arg : Event

/-- Modelled from the spec: `callActions` of the missing
invisible_ui/events/handler.py.  Gated on `(session.isRunning OR
handler.alwaysActive)`; when the gate passes it invokes every action in
the bound list, in order, passing the handler itself plus the
caller-supplied argument; when the gate fails it is a silent no-op.  The
session run flag is supplied by the host session and passed explicitly. -/
def call_actions (running : Bool) (h : EventsHandler) (e : Event) : List Invocation :=
  if running || h.always_active then
    h.actions.map (fun a => Invocation.mk a h.hid e)
  else []

/-- The EventManager session state: the `_events` registry dict (an
association list from type tag to the ordered handler list), the
`_logger` slot (`none` is Python None; a configured sink is identified by
a number), the host session's run flag consulted by the invocation gate,
and the fresh-id counter modelling object allocation. -/
structure EventManager where
  events : List (Nat × List EventsHandler)
  logger : Option Nat
  running : Bool
  nextId : Nat

/-- Python dict lookup (`d[t]` / `d.get(t)`). -/
def dictGet : List (Nat × List EventsHandler) → Nat → Option (List EventsHandler)
  | [], _ => none
  | (k, v) :: rest, t => if k = t then some v else dictGet rest t

/-- Python dict assignment `d[t] = l`: replace the existing entry or
append a new one, preserving insertion order. -/
def dictSet : List (Nat × List EventsHandler) → Nat → List EventsHandler → List (Nat × List EventsHandler)
  | [], t, l => [(t, l)]
  | (k, v) :: rest, t, l => if k = t then (t, l) :: rest else (k, v) :: dictSet rest t l

/-- The scan of `handle_event` over the handler list for the event's type
(eventManager.py lines 43-57).  Returns the handled flag together with the
trace of action invocations and of debug log records emitted; a TypeError
raised while matching propagates. -/
def scanHandlers (running : Bool) (hasLogger : Bool) (e : Event) :
    List EventsHandler → Except PyErr (Bool × List Invocation × List Event)
  | [] => .ok (false, [], [])
  | h :: rest =>
    match checkParams h.params e with
    | .error err => .error err
    | .ok matched =>
      if matched then
        .ok (true, call_actions running h e, if hasLogger then [e] else [])
      else
        scanHandlers running hasLogger e rest

/-- `EventManager.handle_event` (eventManager.py lines 42-57): look up
the handlers registered for `event.type` (defaulting to the empty list),
scan them in registration order, invoke the first full match's actions,
log one debug record if a logger is configured, and report whether the
event was handled. -/
def handle_event (m : EventManager) (e : Event) : Except PyErr (Bool × List Invocation × List Event) :=
  scanHandlers m.running m.logger.isSome e ((dictGet m.events e.type).getD [])

/-- The `actions` argument of `add_handler`: a single action or a list of
actions (eventManager.py lines 83-85). -/
inductive ActionsArg where
  | single (a : Nat)
  | many (l : List Nat)

/-- Modelled from the spec: the missing invisible_ui/events/handler.py
normalizes the accepted single-action-or-sequence argument into one
canonical ordered action list at construction. -/
def normalize_actions : ActionsArg → List Nat
  | .single a => [a]
  | .many l => l

/-- `EventManager.add_handler` (eventManager.py lines 77-101): construct a
Handler bound to this session with the given type, filter mapping and
normalized actions (always-active defaults to false), append it to the
registry's list for `type` (creating the list if absent), and return it. -/
def add_handler (m : EventManager) (t : Nat) (acts : ActionsArg) (kw : List (String × Matcher)) :
    EventsHandler × EventManager :=
  let h : EventsHandler := ⟨m.nextId, t, kw, normalize_actions acts, false⟩
  let l := (dictGet m.events t).getD []
  (h, { m with events := dictSet m.events t (l ++ [h]), nextId := m.nextId + 1 })

/-- Python `list.remove(h)` under default object identity: drop the first
element with `h`'s id, or report ValueError (`none`) if absent. -/
def listRemove : List EventsHandler → Nat → Option (List EventsHandler)
  | [], _ => none
  | x :: xs, i => if x.hid = i then some xs else (listRemove xs i).map (x :: ·)

/-- `EventManager.remove_handler` (eventManager.py lines 103-115):
`self._events[handler.type].remove(handler)` inside `try ... except
ValueError`.  A missing dict entry for `handler.type` raises KeyError,
which the `except ValueError` clause does not catch, so it propagates;
a ValueError from `list.remove` is caught and reported as false. -/
def remove_handler (m : EventManager) (h : EventsHandler) : EventManager × Except PyErr Bool :=
  match dictGet m.events h.type with
  | none => (m, .error .keyError)
  | some l =>
    match listRemove l h.hid with
    | none => (m, .ok false)
    | some l2 => ({ m with events := dictSet m.events h.type l2 }, .ok true)

/-- An argument that may or may not be a Handler instance, for the
`isinstance(handler, Handler)` checks of the modification operations. -/
inductive PyObj where
  | handlerObj (h : EventsHandler)
  | valObj (v : PyVal)

/-- `EventManager.change_event_params` (eventManager.py lines 133-147):
TypeError for a non-Handler argument; remove the existing registration
(propagating its KeyError, and raising ValueError when it reports false);
then re-add a handler with the same type and actions and the new params.
The trailing `self.event = handler.event` attribute copy does not touch
the registry and is not modelled. -/
def change_event_params (m : EventManager) (arg : PyObj) (kw : List (String × Matcher)) :
    EventManager × Except PyErr Unit :=
  match arg with
  | .valObj _ => (m, .error .typeError)
  | .handlerObj h =>
    match remove_handler m h with
    | (m1, .error err) => (m1, .error err)
    | (m1, .ok false) => (m1, .error .valueError)
    | (m1, .ok true) =>
      let (_, m2) := add_handler m1 h.type (.many h.actions) kw
      (m2, .ok ())

/-- `EventManager.change_event_actions` (eventManager.py lines 149-163):
same argument checks and removal as `change_event_params`; but the
re-insertion line `self.add_handler(handler.type, actions, handler.params)`
passes `handler.params` as a third positional argument to a method whose
signature is `add_handler(self, type, actions, **kwargs)`, so Python
raises TypeError before `add_handler`'s body runs: the removal stands and
nothing is re-inserted. -/
def change_event_actions (m : EventManager) (arg : PyObj) (_acts : ActionsArg) :
    EventManager × Except PyErr Unit :=
  match arg with
  | .valObj _ => (m, .error .typeError)
  | .handlerObj h =>
    match remove_handler m h with
    | (m1, .error err) => (m1, .error err)
    | (m1, .ok false) => (m1, .error .valueError)
    | (m1, .ok true) => (m1, .error .typeError)

/-- A value offered to the `logger` property setter: Python None, a
genuine `logging.Logger` (identified by a number), or any other value. -/
inductive LoggerArg where
  | noneA
  | loggerA (i : Nat)
  | otherA (v : PyVal)

/-- The `logger` property setter (eventManager.py lines 69-75): raise
ValueError when the value is None or not a `logging.Logger` instance,
otherwise install it. -/
def set_logger (m : EventManager) (x : LoggerArg) : EventManager × Except PyErr Unit :=
  match x with
  | .loggerA i => ({ m with logger := some i }, .ok ())
  | _ => (m, .error .valueError)

/-- The session a handler of invisible_ui/handler.py is attached to, as
far as that module reads it: the `running` flag consulted by the
invocation gate. -/
structure Session where
  running : Bool

/-- The Handler class of invisible_ui/handler.py: session back-reference,
event type, params mapping, bound function (an opaque token plus the
documentation string `inspect.getdoc` would introspect from it), the
optional explicit docstring, and the always-active flag. -/
structure Handler where
  session : Session
  type : Nat
  params : List (String × Matcher)
  func : Nat
  funcDoc : Option String
  docstring : Option String
  always_active : Bool

/-- `Handler.get_help` (handler.py lines 32-37): return `self.docstring`
when it is truthy (a non-empty string), else `inspect.getdoc(self.func)`. -/
def Handler.get_help (h : Handler) : Option String :=
  match h.docstring with
  | some s => if s != "" then some s else h.funcDoc
  | none => h.funcDoc

/-- `Handler.call_func` (handler.py lines 39-42): when `self.session.running
or self.always_active`, call `self.func(self, *args, **kwargs)` (recorded
as the function token with its argument list); otherwise fall through and
implicitly return None (`none`), invoking nothing and raising nothing. -/
def Handler.call_func (h : Handler) (args : List PyVal) : Option (Nat × List PyVal) :=
  if h.session.running || h.always_active then some (h.func, args) else none

/-- A fresh session: empty registry, no logger, host session running. -/
def em0 : EventManager := ⟨[], none, true, 0⟩

/-- A handler filtering on the plain literal value 13, registered for
event type 2, together with the manager holding it. -/
def emC1 : EventManager :=
  (add_handler em0 2 (.single 7) [("key", .lit (.vint 13))]).2

/-- An event of type 2 whose field equals the literal matcher's value. -/
def evC1 : Event := ⟨2, [("key", .vint 13)]⟩

/-- Claim C1: the spec says a plain (non-callable) matcher is tested by
equality with the event's field value and a callable one by a truthy call.
The code calls every matcher unconditionally, so dispatching a handler
whose matcher is the plain value 13 against an event whose field equals 13
raises TypeError instead of matching. -/
theorem handle_event_plain_matcher_type_error :
    handle_event emC1 evC1 = .error .typeError := rfl

/-- A handler for type 1 together with the manager it is registered in. -/
def hmC2 : EventsHandler × EventManager := add_handler em0 1 (.single 7) []

/-- Claim C2: change_event_actions on a registered handler raises
TypeError (the re-insertion line passes handler.params as a third
positional argument) after the removal already succeeded, and the registry
is left without the handler rather than restored to its prior state. -/
theorem change_event_actions_not_atomic :
    (change_event_actions hmC2.2 (.handlerObj hmC2.1) (.single 8)).2 = .error .typeError ∧
    dictGet (change_event_actions hmC2.2 (.handlerObj hmC2.1) (.single 8)).1.events 1 = some [] ∧
    dictGet hmC2.2.events 1 = some [hmC2.1] := ⟨rfl, rfl, rfl⟩

/-- A handler filtering on the plain literal 13, registered for type 3. -/
def emC4 : EventManager :=
  (add_handler em0 3 (.single 7) [("key", .lit (.vint 13))]).2

/-- An event of type 3 that lacks the filtered field. -/
def evC4 : Event := ⟨3, []⟩

/-- A handler for type 3 whose callable matcher is falsy on every event
field value but truthy when applied to the function object itself. -/
def emC4f : EventManager :=
  (add_handler em0 3 (.single 7) [("key", .func (fun _ => .vint 0) (.vint 1))]).2

/-- Claim C4: on an event lacking the filtered field the code falls back
to the matcher itself as the actual value and calls the matcher on it.
For a literal matcher the claim says the field is considered matched, but
the code raises TypeError (the literal is not callable).  The callable
half does hold: a matcher falsy on every field value yet truthy on itself
matches exactly the events lacking the field, showing the fallback call
receives the matcher itself and the outcome depends on its result. -/
theorem handle_event_missing_field_fallback :
    handle_event emC4 evC4 = .error .typeError ∧
    handle_event emC4f evC4 = .ok (true, [Invocation.mk 7 0 evC4], []) ∧
    handle_event emC4f ⟨3, [("key", .vint 5)]⟩ = .ok (false, [], []) := ⟨rfl, rfl, rfl⟩

/-- A handler of type 5 that was never registered with `em0` (its type has
no entry in the registry dict). -/
def hC5 : EventsHandler := ⟨0, 5, [], [7], false⟩

/-- A registered handler for type 1 with its manager, for the repeated
removal half of the claim. -/
def hmC5 : EventsHandler × EventManager := add_handler em0 1 (.single 7) []

/-- Claim C5: remove_handler on a handler whose type has no registry entry
raises KeyError instead of returning false, because the dict subscript is
outside the except-ValueError protection; when the type entry exists,
removing the same handler twice does return true then false. -/
theorem remove_handler_key_error :
    remove_handler em0 hC5 = (em0, .error .keyError) ∧
    (remove_handler hmC5.2 hmC5.1).2 = .ok true ∧
    (remove_handler (remove_handler hmC5.2 hmC5.1).1 hmC5.1).2 = .ok false := ⟨rfl, rfl, rfl⟩

/-- Claim C3: first-match-wins in registration order: with handlers H1
then H2 registered in that order for the event's type and both fully
matching, handle_event on a running session returns true having invoked
exactly H1's actions in order; none of H2's actions are ever invoked. -/
theorem handle_event_first_match_wins (m : EventManager) (e : Event)
    (h1 h2 : EventsHandler)
    (hl : dictGet m.events e.type = some [h1, h2])
    (hm1 : checkParams h1.params e = .ok true)
    (hm2 : checkParams h2.params e = .ok true)
    (hrun : m.running = true) :
    handle_event m e =
      .ok (true, h1.actions.map (fun a => Invocation.mk a h1.hid e),
        if m.logger.isSome then [e] else []) := by
  unfold handle_event
  rw [hl]
  simp [scanHandlers, hm1, call_actions, hrun]

/-- First registration step for the C3 scenario: handler with action 7
under type 2. -/
def s1C3 : EventsHandler × EventManager := add_handler em0 2 (.single 7) []

/-- Second registration step for the C3 scenario: handler with action 8
under the same type 2. -/
def s2C3 : EventsHandler × EventManager := add_handler s1C3.2 2 (.single 8) []

/-- An event of type 2 for the C3 scenario. -/
def evC3 : Event := ⟨2, []⟩

/-- Concrete instance of the first-match-wins theorem: both handlers
match (empty filters) and only the first one's action is invoked. -/
theorem handle_event_first_match_wins_witness :
    handle_event s2C3.2 evC3 =
      .ok (true, s1C3.1.actions.map (fun a => Invocation.mk a s1C3.1.hid evC3),
        if s2C3.2.logger.isSome then [evC3] else []) :=
  handle_event_first_match_wins s2C3.2 evC3 s1C3.1 s2C3.1 rfl rfl rfl rfl

/-- Claim C7: call_func invokes the bound function iff the session is
running or the handler is always-active; a failed gate is a silent no-op
(it returns None, invokes nothing and raises nothing); and an
always-active handler fires regardless of the run flag. -/
theorem call_func_gate (h : Handler) (args : List PyVal) :
    ((h.call_func args).isSome ↔ (h.session.running = true ∨ h.always_active = true)) ∧
    (h.session.running = false → h.always_active = false → h.call_func args = none) ∧
    (h.always_active = true → h.call_func args = some (h.func, args)) := by
  refine ⟨?_, ?_, ?_⟩
  · unfold Handler.call_func
    cases hr : h.session.running <;> cases ha : h.always_active <;> simp
  · intro h1 h2; simp [Handler.call_func, h1, h2]
  · intro h1; simp [Handler.call_func, h1]

/-- An always-active handler attached to a paused session. -/
def hC7 : Handler := ⟨⟨false⟩, 1, [], 9, none, none, true⟩

/-- Concrete instance of the gate theorem: the always-active handler of a
paused session still invokes its function. -/
theorem call_func_gate_witness :
    hC7.call_func [] = some (hC7.func, []) :=
  (call_func_gate hC7 []).2.2 rfl

/-- Claim C10: get_help ignores a falsy explicit docstring (the empty
string, or the None default) and returns the introspected documentation of
the bound function; only a non-empty explicit docstring is returned
as-is.  In either case it computes a value and changes nothing. -/
theorem get_help_falsy_docstring (h : Handler) :
    (h.docstring = some "" → h.get_help = h.funcDoc) ∧
    (h.docstring = none → h.get_help = h.funcDoc) ∧
    (∀ s, h.docstring = some s → s ≠ "" → h.get_help = some s) := by
  refine ⟨?_, ?_, ?_⟩
  · intro hd; simp [Handler.get_help, hd]
  · intro hd; simp [Handler.get_help, hd]
  · intro s hd hs; simp [Handler.get_help, hd, hs]

/-- A handler constructed with an explicit empty docstring whose bound
function carries its own documentation. -/
def hC10 : Handler := ⟨⟨true⟩, 1, [], 9, some "introspected", some "", false⟩

/-- Concrete instance of the get_help theorem: the empty explicit
docstring is ignored in favour of the function's own documentation. -/
theorem get_help_falsy_docstring_witness :
    hC10.get_help = hC10.funcDoc :=
  (get_help_falsy_docstring hC10).1 rfl

/-- Claim C6: add_handler normalizes a single action or an ordered action
sequence into the constructed handler's canonical ordered action list, and
whenever the invocation gate passes, call_actions invokes every action of
that list in order, each receiving the handler itself (its identity) and
the caller-supplied event argument. -/
theorem add_handler_normalizes_and_calls_all (m : EventManager) (t : Nat)
    (kw : List (String × Matcher)) (a : Nat) (l : List Nat)
    (h : EventsHandler) (run : Bool) (e : Event)
    (hgate : (run || h.always_active) = true) :
    (add_handler m t (.single a) kw).1.actions = [a] ∧
    (add_handler m t (.many l) kw).1.actions = l ∧
    call_actions run h e = h.actions.map (fun act => Invocation.mk act h.hid e) := by
  refine ⟨rfl, rfl, ?_⟩
  simp [call_actions, hgate]

/-- An event of type 1 for the C6 scenario. -/
def evC6 : Event := ⟨1, []⟩

/-- Concrete instance of the normalization theorem: a single action
becomes a one-element list, a two-action list is kept in order, and the
running gate invokes both actions in order with the handler's identity. -/
theorem add_handler_normalizes_and_calls_all_witness :
    (add_handler em0 1 (.single 7) []).1.actions = [7] ∧
    (add_handler em0 1 (.many [7, 8]) []).1.actions = [7, 8] ∧
    call_actions true (add_handler em0 1 (.many [7, 8]) []).1 evC6 =
      (add_handler em0 1 (.many [7, 8]) []).1.actions.map
        (fun act => Invocation.mk act (add_handler em0 1 (.many [7, 8]) []).1.hid evC6) :=
  add_handler_normalizes_and_calls_all em0 1 [] 7 [7, 8]
    (add_handler em0 1 (.many [7, 8]) []).1 true evC6 rfl

/-- A prefix of handlers that all fail cleanly contributes nothing to the
scan: dispatch proceeds to the remaining handlers unchanged. -/
theorem scanHandlers_skip (running hasLogger : Bool) (e : Event)
    (pre rest : List EventsHandler)
    (hpre : ∀ h ∈ pre, checkParams h.params e = .ok false) :
    scanHandlers running hasLogger e (pre ++ rest) =
      scanHandlers running hasLogger e rest := by
  induction pre with
  | nil => rfl
  | cons p ps ih =>
    have hp := hpre p (List.mem_cons_self p ps)
    rw [List.cons_append]
    rw [show scanHandlers running hasLogger e (p :: (ps ++ rest)) =
        scanHandlers running hasLogger e (ps ++ rest) by simp [scanHandlers, hp]]
    exact ih (fun h hh => hpre h (List.mem_cons_of_mem p hh))

/-- Claim C8: a handler with an empty filter mapping matches as soon as
the scan reaches it: if every handler registered before it fails cleanly
on the event, dispatch stops at it, invokes its gated actions, and returns
true regardless of the event's field values. -/
theorem handle_event_empty_filter_catch_all (m : EventManager) (e : Event)
    (pre post : List EventsHandler) (h : EventsHandler)
    (hl : dictGet m.events e.type = some (pre ++ h :: post))
    (hp : h.params = [])
    (hpre : ∀ h' ∈ pre, checkParams h'.params e = .ok false) :
    handle_event m e =
      .ok (true, call_actions m.running h e,
        if m.logger.isSome then [e] else []) := by
  unfold handle_event
  rw [hl]
  show scanHandlers m.running m.logger.isSome e (pre ++ h :: post) = _
  rw [scanHandlers_skip m.running m.logger.isSome e pre (h :: post) hpre]
  simp [scanHandlers, hp, checkParams]

/-- A handler for type 4 whose callable matcher rejects every value,
registered first. -/
def s1C8 : EventsHandler × EventManager :=
  add_handler em0 4 (.single 7) [("key", .func (fun _ => .vint 0) (.vint 0))]

/-- A catch-all handler (empty filter mapping) for type 4, registered
second. -/
def s2C8 : EventsHandler × EventManager := add_handler s1C8.2 4 (.single 8) []

/-- An event of type 4 carrying a field the first handler rejects. -/
def evC8 : Event := ⟨4, [("key", .vint 1)]⟩

/-- Concrete instance of the catch-all theorem: the first handler's filter
fails, the empty-filter handler matches and its action is invoked. -/
theorem handle_event_empty_filter_catch_all_witness :
    handle_event s2C8.2 evC8 =
      .ok (true, call_actions s2C8.2.running s2C8.1 evC8,
        if s2C8.2.logger.isSome then [evC8] else []) :=
  handle_event_empty_filter_catch_all s2C8.2 evC8 [s1C8.1] [] s2C8.1 rfl rfl
    (fun h' hh => by
      rw [List.mem_singleton] at hh
      subst hh
      rfl)

/-- With a configured logger, the scan emits exactly one log record when
it reports a match and none when it reports a clean non-match. -/
theorem scanHandlers_log_count (running : Bool) (e : Event)
    (l : List EventsHandler) :
    ∀ b inv logs, scanHandlers running true e l = .ok (b, inv, logs) →
      logs.length = if b then 1 else 0 := by
  induction l with
  | nil =>
    intro b inv logs hscan
    simp only [scanHandlers, Except.ok.injEq, Prod.mk.injEq] at hscan
    rw [← hscan.1, ← hscan.2.2]
    rfl
  | cons hh rest ih =>
    intro b inv logs hscan
    unfold scanHandlers at hscan
    cases hc : checkParams hh.params e with
    | error err => rw [hc] at hscan; exact absurd hscan (by simp)
    | ok matched =>
      rw [hc] at hscan
      cases matched with
      | false => exact ih b inv logs hscan
      | true =>
        simp only [if_true, Except.ok.injEq, Prod.mk.injEq] at hscan
        rw [← hscan.1, ← hscan.2.2]
        rfl

/-- Claim C9: the logger property setter rejects None and every non-Logger
value with an explicit error and installs nothing, while handle_event with
a configured logger emits exactly one debug record on a successful match
and none on a clean non-match. -/
theorem logger_contract :
    (∀ m, set_logger m .noneA = (m, .error .valueError)) ∧
    (∀ m v, set_logger m (.otherA v) = (m, .error .valueError)) ∧
    (∀ m e b inv logs, m.logger.isSome = true →
      handle_event m e = .ok (b, inv, logs) →
      logs.length = if b then 1 else 0) := by
  refine ⟨fun m => rfl, fun m v => rfl, ?_⟩
  intro m e b inv logs hlog hhe
  unfold handle_event at hhe
  rw [hlog] at hhe
  exact scanHandlers_log_count m.running e _ b inv logs hhe

/-- A manager with a configured logger and one catch-all handler for
type 6. -/
def emC9 : EventManager :=
  { (add_handler em0 6 (.single 7) []).2 with logger := some 0 }

/-- An event of type 6 for the C9 scenario. -/
def evC9 : Event := ⟨6, []⟩

/-- Concrete instance of the logger contract: the setter rejects None,
and dispatching a matching event with a configured logger produced the
one-element log trace. -/
theorem logger_contract_witness :
    set_logger em0 .noneA = (em0, .error .valueError) ∧
    List.length [evC9] = if true then 1 else 0 :=
  ⟨logger_contract.1 em0,
   logger_contract.2.2 emC9 evC9 true
     [Invocation.mk 7 (add_handler em0 6 (.single 7) []).1.hid evC9] [evC9] rfl rfl⟩
